import Mathlib

/-!
A shallow embedding of the SOCKSv5 proxy implemented in `remote/socks.py`
(classes `SOCKSv5` and `SOCKSv5Outgoing`, built on Twisted's
`StatefulProtocol`), together with theorems settling the specification
claims about it.

Conventions of the embedding:
* Python `bytes` values are `List Nat` (each element a byte value).
* Side effects (transport writes, `loseConnection`, outbound `connectTCP`
  attempts, `lookupAddress` calls, `log.err`) are recorded as an ordered
  trace of `TraceEv` events.
* Python exceptions (`AssertionError` from the bare `assert` statements,
  `TypeError` from `str(host, "utf-8")` applied to a `str`,
  `UnicodeDecodeError` from decoding invalid UTF-8, `struct.error`,
  `OSError` from `socket.inet_aton`/`inet_ntoa`) are `Option PyErr`
  results; an exception aborts the step with the effects already emitted.
* The `StatefulProtocol.dataReceived` loop (accumulate bytes, feed the
  current handler exactly the byte count it asked for, install the
  returned `(handler, count)` pair, stop when a handler returns `None`)
  is `runLoop`; it takes a fuel argument that is always supplied large
  enough (each iteration consumes the requested bytes, and only the
  handshake-auth state can request 0 bytes, after which 4 are requested).
-/

deriving instance DecidableEq for Except

namespace Socks

/-- Python exception classes that the code under study can raise. -/
inductive PyErr
  | assertionError
  | typeError
  | unicodeDecodeError
  | structError
  | oserror
  deriving DecidableEq

/-- The value stored in `SOCKSv5.command` (`"CONNECT"` or `"RESOLVE"`). -/
inductive Command
  | CONNECT
  | RESOLVE
  deriving DecidableEq

/-- A host value flowing into `_done_parsing`: the IPv4 path produces a
Python `str` (from `socket.inet_ntoa`), the domain-name path produces
`bytes` (a slice of the request frame). -/
inductive HostVal
  | pyStr (s : String)
  | pyBytes (b : List Nat)
  deriving DecidableEq

/-- The parser states of the `StatefulProtocol` state machine: one
constructor per handler method of `SOCKSv5`. -/
inductive ParserState
  | handshakeStart
  | handshakeAuth
  | requestStart
  | requestIPv4
  | requestDomainnameStart
  | requestDomainname
  deriving DecidableEq

/-- One observable side effect of the session, in program order.
`clientWrite`/`clientClose` act on the client transport, `otherWrite` /
`otherClose` on the destination transport reached through `otherConn`,
`setOtherConn` is the assignment `self.socks.otherConn = self`,
`connectAttempt` is `connectClass(host, port, ...)`, `lookupAttempt` is
`reactor.lookupAddress(host)`, and `errLogged` is `log.err(error)`. -/
inductive TraceEv
  | clientWrite (bs : List Nat)
  | clientClose
  | setOtherConn
  | otherWrite (bs : List Nat)
  | otherClose
  | connectAttempt (host : String) (port : Nat)
  | lookupAttempt (host : String)
  | errLogged (e : String)
  deriving DecidableEq

/-- Model of `struct.pack("!H", p)`: two big-endian bytes, `struct.error` when the
value does not fit in 16 bits. -/
def struct_pack_H (p : Nat) : Except PyErr (List Nat) :=
  if p < 65536 then Except.ok [p / 256, p % 256] else Except.error .structError

/-- Model of `struct.unpack("!H", bs)[0]`: requires exactly two bytes. -/
def struct_unpack_H (bs : List Nat) : Except PyErr Nat :=
  match bs with
  | [hi, lo] => Except.ok (hi * 256 + lo)
  | _ => Except.error .structError

/-- Model of `struct.pack("!BBBB", a, b, c, d)`: four bytes, `struct.error` when a
value does not fit in 8 bits. -/
def struct_pack_BBBB (a b c d : Nat) : Except PyErr (List Nat) :=
  if a < 256 ∧ b < 256 ∧ c < 256 ∧ d < 256 then Except.ok [a, b, c, d]
  else Except.error .structError

/-- Model of `socket.inet_ntoa`: dotted-decimal rendering of a 4-byte packed
address; raises unless given exactly 4 bytes. -/
def inet_ntoa (bs : List Nat) : Except PyErr String :=
  match bs with
  | [a, b, c, d] =>
      Except.ok (toString a ++ "." ++ toString b ++ "." ++ toString c ++ "." ++ toString d)
  | _ => Except.error .oserror

/-- Split a character list at every dot (helper for `inet_aton`). -/
def splitDots : List Char → List (List Char)
  | [] => [[]]
  | c :: rest =>
      let r := splitDots rest
      if c = '.' then [] :: r
      else
        match r with
        | g :: gs => (c :: g) :: gs
        | [] => [[c]]

/-- Decimal value of a nonempty all-digit group (helper for `inet_aton`). -/
def decimalOctet (cs : List Char) : Option Nat :=
  if cs = [] then none
  else if cs.all (fun c => c.isDigit) then
    some (cs.foldl (fun n c => n * 10 + (c.toNat - 48)) 0)
  else none

/-- Model of `socket.inet_aton`, restricted on the dotted-quad form `a.b.c.d` with
each decimal component below 256 (the only form this program ever passes
to it: the literal `"0.0.0.0"`, a kernel-reported bound address, or a
resolver-reported address); every other string is rejected with
`OSError`. -/
def inet_aton (s : String) : Except PyErr (List Nat) :=
  match (splitDots s.data).mapM decimalOctet with
  | some vals =>
      if vals.length = 4 ∧ vals.all (fun v => v < 256) then Except.ok vals
      else Except.error .oserror
  | none => Except.error .oserror

/-- Python `str(x, "utf-8")` as applied in `_done_parsing`: on a `str`
argument it raises `TypeError` (decoding str is not supported); on a
`bytes` argument it decodes UTF-8, raising `UnicodeDecodeError` on
invalid byte sequences. -/
def py_str_utf8 : HostVal → Except PyErr String
  | .pyStr _ => Except.error .typeError
  | .pyBytes b =>
      match String.fromUTF8? (ByteArray.mk ((b.map (fun n => UInt8.ofNat n)).toArray)) with
      | some s => Except.ok s
      | none => Except.error .unicodeDecodeError

/-- The per-session mutable state of one `SOCKSv5` protocol instance:
`command` and `otherConn` are the attributes set in `connectionMade`,
`(ps, needed, buf)` is Twisted `StatefulProtocol`'s `_sful_data` (current
handler, the byte count it asked for, and the accumulated buffer). -/
structure Machine where
  command : Option Command
  otherConn : Bool
  ps : ParserState
  needed : Nat
  buf : List Nat
  deriving DecidableEq

/-- State after `SOCKSv5.connectionMade` plus `getInitialState`:
no command, `otherConn = None`, handler `_parse_handshake_start`
expecting 2 bytes, empty buffer. -/
def initialMachine : Machine :=
  { command := none, otherConn := false, ps := .handshakeStart, needed := 2, buf := [] }

/-- Result of running one parser handler: the possibly updated
`self.command`, the effects emitted, the exception raised (if any), and
the `(next handler, bytes needed)` pair returned (`none` both for a
`return` with no value and for an exception). -/
structure HRes where
  command : Option Command
  trace : List TraceEv
  err : Option PyErr
  next : Option (ParserState × Nat)
  deriving DecidableEq

/-- The frame built by `SOCKSv5._write_response`:
`struct.pack("!BBBB", 5, code, 0, 1) + socket.inet_aton(host) +
struct.pack("!H", port)`, paired with whether the transport is closed
afterwards (`code != 0`). -/
def write_response_frame (code : Nat) (host : String) (port : Nat) :
    Except PyErr (List Nat × Bool) := do
  let hdr ← struct_pack_BBBB 5 code 0 1
  let quad ← inet_aton host
  let pb ← struct_pack_H port
  Except.ok (hdr ++ quad ++ pb, code != 0)

/-- Effects of `SOCKSv5._write_response`: write the frame, then
`loseConnection` when `code != 0`; an exception while building the frame
emits nothing. -/
def emit_response (code : Nat) (host : String) (port : Nat) :
    List TraceEv × Option PyErr :=
  match write_response_frame code host port with
  | .ok (frame, close) =>
      ((TraceEv.clientWrite frame) :: (if close then [TraceEv.clientClose] else []), none)
  | .error e => ([], some e)

/-- Translation of `SOCKSv5._done_parsing`: first `host = str(host, "utf-8")` (the step
that raises `TypeError` when `host` is already a `str`), then dispatch on
`self.command`: CONNECT starts `connectClass(str(host), port, ...)`,
RESOLVE starts `reactor.lookupAddress(host)` (the port is not used). -/
def done_parsing (cmd : Option Command) (host : HostVal) (port : Nat) : HRes :=
  match py_str_utf8 host with
  | .error e => ⟨cmd, [], some e, none⟩
  | .ok h =>
      match cmd with
      | some .CONNECT => ⟨cmd, [TraceEv.connectAttempt h port], none, none⟩
      | some .RESOLVE => ⟨cmd, [TraceEv.lookupAttempt h], none, none⟩
      | none => ⟨cmd, [], none, none⟩

/-- The assignment `host = socket.inet_ntoa(data[:4])` in `_parse_request_ipv4`. -/
def parse_ipv4_host (data : List Nat) : Except PyErr String :=
  inet_ntoa (data.take 4)

/-- The assignment `port = struct.unpack("!H", data[4:6])[0]` in `_parse_request_ipv4`. -/
def parse_ipv4_port (data : List Nat) : Except PyErr Nat :=
  struct_unpack_H ((data.drop 4).take 2)

/-- The assignment `host = data[:-2]` in `_parse_request_domainname`. -/
def domainname_host (data : List Nat) : List Nat :=
  data.take (data.length - 2)

/-- The assignment `port = struct.unpack("!H", data[-2:])[0]` in `_parse_request_domainname`. -/
def domainname_port (data : List Nat) : Except PyErr Nat :=
  struct_unpack_H (data.drop (data.length - 2))

/-- One parser handler invocation: `stepHandler st cmd data` runs the
handler that `st` names on the frame `data` (exactly the bytes the state
asked for), with `self.command = cmd`.  Each arm is a direct translation
of the corresponding `SOCKSv5._parse_*` method. -/
def stepHandler (st : ParserState) (cmd : Option Command) (data : List Nat) : HRes :=
  match st with
  | .handshakeStart =>
      -- assert data[0] == 5; return self._parse_handshake_auth, data[1]
      if data.getD 0 0 = 5 then ⟨cmd, [], none, some (.handshakeAuth, data.getD 1 0)⟩
      else ⟨cmd, [], some .assertionError, none⟩
  | .handshakeAuth =>
      -- self.write(b"\x05\x00"); return self._parse_request_start, 4
      ⟨cmd, [TraceEv.clientWrite [5, 0]], none, some (.requestStart, 4)⟩
  | .requestStart =>
      -- assert data[0] == 5; assert data[2] == 0
      if data.getD 0 0 ≠ 5 then ⟨cmd, [], some .assertionError, none⟩
      else if data.getD 2 0 ≠ 0 then ⟨cmd, [], some .assertionError, none⟩
      else
        let command := data.getD 1 0
        let addr_type := data.getD 3 0
        if command = 1 ∨ command = 240 then
          let cmd' : Option Command := if command = 1 then some .CONNECT else some .RESOLVE
          if addr_type = 1 then ⟨cmd', [], none, some (.requestIPv4, 6)⟩
          else if addr_type = 3 then ⟨cmd', [], none, some (.requestDomainnameStart, 1)⟩
          else
            -- IPv6 and any other address type: unsupported response
            let (t, e) := emit_response 7 "0.0.0.0" 0
            ⟨cmd', t, e, none⟩
        else
          -- unsupported command response
          let (t, e) := emit_response 7 "0.0.0.0" 0
          ⟨cmd, t, e, none⟩
  | .requestIPv4 =>
      match parse_ipv4_host data with
      | .error e => ⟨cmd, [], some e, none⟩
      | .ok h =>
          match parse_ipv4_port data with
          | .error e => ⟨cmd, [], some e, none⟩
          | .ok p => done_parsing cmd (.pyStr h) p
  | .requestDomainnameStart =>
      -- length = data[0]; return self._parse_request_domainname, length + 2
      ⟨cmd, [], none, some (.requestDomainname, data.getD 0 0 + 2)⟩
  | .requestDomainname =>
      match domainname_port data with
      | .error e => ⟨cmd, [], some e, none⟩
      | .ok p => done_parsing cmd (.pyBytes (domainname_host data)) p

/-- The `StatefulProtocol.dataReceived` loop: while the buffer holds at
least the requested byte count, slice exactly that many bytes, run the
current handler, and install the returned `(handler, count)`; stop when
the handler returns `None` (the state pair is left unchanged, as in
Twisted) or raises.  `fuel` only bounds the recursion; callers supply
more than the iteration count can reach. -/
def runLoop : Nat → Machine → List TraceEv → Machine × List TraceEv × Option PyErr
  | 0, m, acc => (m, acc, none)
  | fuel + 1, m, acc =>
      if m.needed ≤ m.buf.length then
        let d := m.buf.take m.needed
        let rest := m.buf.drop m.needed
        let r := stepHandler m.ps m.command d
        match r.err with
        | some e => ({ m with command := r.command, buf := rest }, acc ++ r.trace, some e)
        | none =>
            match r.next with
            | none => ({ m with command := r.command, buf := rest }, acc ++ r.trace, none)
            | some (ps', n') =>
                runLoop fuel
                  { command := r.command, otherConn := m.otherConn,
                    ps := ps', needed := n', buf := rest } (acc ++ r.trace)
      else (m, acc, none)

/-- Translation of `SOCKSv5.dataReceived`: once `otherConn` is set the chunk is relayed
verbatim to the destination transport; otherwise it is appended to the
buffer and the parsing loop runs. -/
def dataReceived (m : Machine) (data : List Nat) :
    Machine × List TraceEv × Option PyErr :=
  if m.otherConn then (m, [TraceEv.otherWrite data], none)
  else runLoop (2 * (m.buf.length + data.length) + 4) { m with buf := m.buf ++ data } []

/-- Translation of `SOCKSv5Outgoing.connectionMade`: set `self.socks.otherConn = self`
first, then `_write_response(0, host.host, host.port)` with the *local*
address of the new outbound socket (`self.transport.getHost()`). -/
def outgoing_connectionMade (m : Machine) (boundHost : String) (boundPort : Nat) :
    Machine × List TraceEv × Option PyErr :=
  let m' := { m with otherConn := true }
  let (t, e) := emit_response 0 boundHost boundPort
  (m', TraceEv.setOtherConn :: t, e)

/-- Translation of `SOCKSv5._handle_error` (the errback of both the CONNECT deferred and
the RESOLVE deferred): `log.err(error)` then `_write_response(1, "0.0.0.0", 0)`. -/
def handle_error (e : String) : List TraceEv × Option PyErr :=
  let (t, er) := emit_response 1 "0.0.0.0" 0
  (TraceEv.errLogged e :: t, er)

/-- The RESOLVE success callback `write_response` defined inside
`_done_parsing`: `self.write(b"\5\0\0\1" + socket.inet_aton(addr))` then
`self.transport.loseConnection()`.  A failing `inet_aton` raises before
anything is written. -/
def resolve_write_response (addr : String) : List TraceEv × Option PyErr :=
  match inet_aton addr with
  | .ok quad => ([TraceEv.clientWrite ([5, 0, 0, 1] ++ quad), TraceEv.clientClose], none)
  | .error e => ([], some e)

/-- Translation of `SOCKSv5.connectionLost`: if `otherConn` is set, close the
destination transport. -/
def socks_connectionLost (m : Machine) : List TraceEv :=
  if m.otherConn then [TraceEv.otherClose] else []

/-- Translation of `SOCKSv5Outgoing.connectionLost`: close the client transport. -/
def outgoing_connectionLost : List TraceEv :=
  [TraceEv.clientClose]

/-- Translation of `SOCKSv5Outgoing.dataReceived`: forward the chunk to the client
transport via `self.socks.write(data)`. -/
def outgoing_dataReceived (data : List Nat) : List TraceEv :=
  [TraceEv.clientWrite data]

/-- The external events one session can experience after it is set up. -/
inductive SessEvent
  | clientData (d : List Nat)
  | outData (d : List Nat)
  | clientClosed
  | outClosed
  | outConnected (boundHost : String) (boundPort : Nat)
  | connectFailed (e : String)
  | lookupDone (addr : String)
  | lookupFailed (e : String)
  deriving DecidableEq

/-- Dispatch of one external event to the handler the code wires up for
it: client bytes to `SOCKSv5.dataReceived`, destination bytes to
`SOCKSv5Outgoing.dataReceived`, the close of either side to the matching
`connectionLost`, outbound-connect success to
`SOCKSv5Outgoing.connectionMade`, and the failure callbacks to
`_handle_error` / the RESOLVE callback. -/
def stepSession (m : Machine) (ev : SessEvent) : Machine × List TraceEv :=
  match ev with
  | .clientData d => let r := dataReceived m d; (r.1, r.2.1)
  | .outData d => (m, outgoing_dataReceived d)
  | .clientClosed => (m, socks_connectionLost m)
  | .outClosed => (m, outgoing_connectionLost)
  | .outConnected bh bp => let r := outgoing_connectionMade m bh bp; (r.1, r.2.1)
  | .connectFailed e => (m, (handle_error e).1)
  | .lookupDone a => (m, (resolve_write_response a).1)
  | .lookupFailed e => (m, (handle_error e).1)

/-- Run a sequence of external events through `stepSession`. -/
def runEvents (m : Machine) : List SessEvent → Machine × List TraceEv
  | [] => (m, [])
  | ev :: rest =>
      let r := stepSession m ev
      let r' := runEvents r.1 rest
      (r'.1, r.2 ++ r'.2)

/-! Helper lemmas shared by the claim theorems. -/

/-- Unfolding of one `runLoop` iteration when the buffer satisfies the
requested byte count. -/
theorem runLoop_succ_le (f : Nat) (m : Machine) (acc : List TraceEv)
    (h : m.needed ≤ m.buf.length) :
    runLoop (f + 1) m acc =
      (let r := stepHandler m.ps m.command (m.buf.take m.needed)
       let rest := m.buf.drop m.needed
       match r.err with
       | some e => ({ m with command := r.command, buf := rest }, acc ++ r.trace, some e)
       | none =>
           match r.next with
           | none => ({ m with command := r.command, buf := rest }, acc ++ r.trace, none)
           | some (ps', n') =>
               runLoop f { command := r.command, otherConn := m.otherConn,
                           ps := ps', needed := n', buf := rest } (acc ++ r.trace)) := by
  rw [runLoop, if_pos h]

/-- The `runLoop` does nothing while the buffer is short of the
requested byte count. -/
theorem runLoop_short (f : Nat) (m : Machine) (acc : List TraceEv)
    (h : m.buf.length < m.needed) :
    runLoop (f + 1) m acc = (m, acc, none) := by
  rw [runLoop, if_neg (Nat.not_le.2 h)]

/-- An error from `struct_unpack_H` is always `struct.error`. -/
theorem struct_unpack_H_error (bs : List Nat) (e : PyErr)
    (h : struct_unpack_H bs = Except.error e) : e = PyErr.structError := by
  unfold struct_unpack_H at h
  split at h <;> simp_all

/-- An error from decoding a `bytes` host is always `UnicodeDecodeError`,
never `TypeError`. -/
theorem py_str_utf8_bytes_error (b : List Nat) (e : PyErr)
    (h : py_str_utf8 (.pyBytes b) = Except.error e) : e = PyErr.unicodeDecodeError := by
  have h' : (match String.fromUTF8? (ByteArray.mk ((b.map (fun n => UInt8.ofNat n)).toArray)) with
      | some s => (Except.ok s : Except PyErr String)
      | none => Except.error PyErr.unicodeDecodeError) = Except.error e := h
  split at h' <;> simp_all

/-- The concrete unsupported-reply effects of `_write_response(7, "0.0.0.0", 0)`. -/
theorem emit_response_7 :
    emit_response 7 "0.0.0.0" 0 =
      ([TraceEv.clientWrite [5, 7, 0, 1, 0, 0, 0, 0, 0, 0], TraceEv.clientClose], none) := by
  decide

/-- The concrete failure-reply effects of `_write_response(1, "0.0.0.0", 0)`. -/
theorem emit_response_1 :
    emit_response 1 "0.0.0.0" 0 =
      ([TraceEv.clientWrite [5, 1, 0, 1, 0, 0, 0, 0, 0, 0], TraceEv.clientClose], none) := by
  decide

/-! Claim theorems. -/

/-- C1: the claim says an `atyp=1` CONNECT request is parsed into host
`"A1.A2.A3.A4"` and port `P1*256+P2` and handed to the Connect Operator.
The parsing half is real: `_parse_request_ipv4` computes exactly those
values (first two conjuncts, at `93.184.216.34:80`).  But the hand-off
never happens: `_done_parsing` applies `str(host, "utf-8")` to the `str`
returned by `socket.inet_ntoa`, which raises `TypeError`, so the session
that sent a complete greeting and IPv4 CONNECT request dies with
`TypeError`, with no reply bytes, no connect attempt and no lookup ever
issued (last conjuncts). -/
theorem c1_ipv4_connect_never_reaches_operator :
    parse_ipv4_host [93, 184, 216, 34, 0, 80] = Except.ok "93.184.216.34" ∧
    parse_ipv4_port [93, 184, 216, 34, 0, 80] = Except.ok 80 ∧
    (dataReceived (dataReceived initialMachine [5, 1, 0]).1
        [5, 1, 0, 1, 93, 184, 216, 34, 0, 80]).2.2 = some PyErr.typeError ∧
    (dataReceived (dataReceived initialMachine [5, 1, 0]).1
        [5, 1, 0, 1, 93, 184, 216, 34, 0, 80]).2.1 = [] := by
  decide

/-- C2: for every 6-byte IPv4 address frame, the `_parse_request_ipv4`
handler ends in `TypeError` (raised by `str(host, "utf-8")` on the `str`
from `socket.inet_ntoa`) with no reply written, no transport close, no
connect attempt and no lookup, regardless of the parsed command; and the
domain-name handler, whose host is `bytes`, never raises `TypeError`. -/
theorem c2_ipv4_typeerror_domain_not (cmd : Option Command) :
    (∀ a b c d p1 p2 : Nat,
        stepHandler .requestIPv4 cmd [a, b, c, d, p1, p2] =
          ⟨cmd, [], some PyErr.typeError, none⟩) ∧
    (∀ data : List Nat,
        (stepHandler .requestDomainname cmd data).err ≠ some PyErr.typeError) := by
  constructor
  · intro a b c d p1 p2
    simp [stepHandler, parse_ipv4_host, parse_ipv4_port, inet_ntoa, struct_unpack_H,
      List.take, List.drop, done_parsing, py_str_utf8]
  · intro data
    simp only [stepHandler]
    cases hp : domainname_port data with
    | error e =>
        have he := struct_unpack_H_error _ _ hp
        simp [he]
    | ok p =>
        simp only []
        unfold done_parsing
        cases hu : py_str_utf8 (.pyBytes (domainname_host data)) with
        | error e =>
            have he := py_str_utf8_bytes_error _ _ hu
            simp [hu, he]
        | ok h =>
            cases cmd with
            | none => simp [hu]
            | some c => cases c <;> simp [hu]

/-- C2 witness: the handler result at a concrete IPv4 frame, and the
absence of `TypeError` at a concrete domain frame. -/
theorem c2_witness :
    stepHandler .requestIPv4 (some Command.CONNECT) [93, 184, 216, 34, 0, 80] =
      ⟨some Command.CONNECT, [], some PyErr.typeError, none⟩ ∧
    (stepHandler .requestDomainname (some Command.CONNECT) [97, 0, 80]).err ≠
      some PyErr.typeError :=
  ⟨(c2_ipv4_typeerror_domain_not (some Command.CONNECT)).1 93 184 216 34 0 80,
   (c2_ipv4_typeerror_domain_not (some Command.CONNECT)).2 [97, 0, 80]⟩

/-- C3: on an `atyp=3` request the length-prefix handler asks for exactly
`L + 2` further bytes (first conjunct, every `L`), and on the `L + 2`
byte frame `name ++ [p1, p2]` the domain handler's extractions produce
host equal to the `L`-byte string `name` and port `p1 * 256 + p2` (the
big-endian value of the trailing two bytes); this covers every length,
in particular `L` in {1, 63, 255}. -/
theorem c3_domainname_parse (cmd : Option Command) :
    (∀ L : Nat,
        stepHandler .requestDomainnameStart cmd [L] =
          ⟨cmd, [], none, some (.requestDomainname, L + 2)⟩) ∧
    (∀ (name : List Nat) (p1 p2 : Nat),
        domainname_host (name ++ [p1, p2]) = name ∧
        domainname_port (name ++ [p1, p2]) = Except.ok (p1 * 256 + p2)) := by
  constructor
  · intro L
    simp [stepHandler]
  · intro name p1 p2
    constructor
    · unfold domainname_host
      simp [List.take_left]
    · unfold domainname_port
      simp [List.drop_left, struct_unpack_H]

/-- C3 witness: the `L = 255` instance, with a 255-byte domain name. -/
theorem c3_witness :
    stepHandler .requestDomainnameStart none [255] =
      ⟨none, [], none, some (.requestDomainname, 257)⟩ ∧
    domainname_host (List.replicate 255 97 ++ [0, 80]) = List.replicate 255 97 ∧
    domainname_port (List.replicate 255 97 ++ [0, 80]) = Except.ok 80 :=
  ⟨(c3_domainname_parse none).1 255,
   ((c3_domainname_parse none).2 (List.replicate 255 97) 0 80).1,
   ((c3_domainname_parse none).2 (List.replicate 255 97) 0 80).2⟩

/-- C4: on a well-formed 4-byte request header `[5, c, 0, a]`, if the
command `c` is not in {1, 240}, or if `c` is supported but the address
type `a` is not in {1, 3} (notably `a = 4`, IPv6), the handler writes
exactly the ten bytes `[5, 7, 0, 1, 0, 0, 0, 0, 0, 0]`, then closes the
transport, emits nothing else, and returns no next state (so no address
bytes are ever requested or read). -/
theorem c4_unsupported_reply (cmd : Option Command) (c a : Nat) :
    (c ≠ 1 → c ≠ 240 →
        stepHandler .requestStart cmd [5, c, 0, a] =
          ⟨cmd, [TraceEv.clientWrite [5, 7, 0, 1, 0, 0, 0, 0, 0, 0], TraceEv.clientClose],
           none, none⟩) ∧
    ((c = 1 ∨ c = 240) → a ≠ 1 → a ≠ 3 →
        stepHandler .requestStart cmd [5, c, 0, a] =
          ⟨(if c = 1 then some Command.CONNECT else some Command.RESOLVE),
           [TraceEv.clientWrite [5, 7, 0, 1, 0, 0, 0, 0, 0, 0], TraceEv.clientClose],
           none, none⟩) := by
  constructor
  · intro h1 h240
    simp [stepHandler, h1, h240, emit_response_7]
  · intro hc ha1 ha3
    simp [stepHandler, hc, ha1, ha3, emit_response_7]

/-- C4 witness: the unsupported command 2, and CONNECT with the IPv6
address type 4, both at concrete inputs. -/
theorem c4_witness :
    stepHandler .requestStart none [5, 2, 0, 1] =
      ⟨none, [TraceEv.clientWrite [5, 7, 0, 1, 0, 0, 0, 0, 0, 0], TraceEv.clientClose],
       none, none⟩ ∧
    stepHandler .requestStart none [5, 1, 0, 4] =
      ⟨some Command.CONNECT,
       [TraceEv.clientWrite [5, 7, 0, 1, 0, 0, 0, 0, 0, 0], TraceEv.clientClose],
       none, none⟩ := by
  refine ⟨(c4_unsupported_reply none 2 1).1 (by decide) (by decide), ?_⟩
  have h := (c4_unsupported_reply none 1 4).2 (Or.inl rfl) (by decide) (by decide)
  simpa using h

/-- C5: when the outbound CONNECT connection succeeds,
`SOCKSv5Outgoing.connectionMade` sets the session's `otherConn` (first
event of the trace, and `otherConn := true` in the resulting machine)
before the reply is written (second event), and the reply has code 0 and
carries the packed form of the bound host and port of the new outbound
socket's own `transport.getHost()` — the destination address is not even
an input of this step. -/
theorem c5_connect_success_reply (m : Machine) (bh : String) (bp : Nat)
    (quad pb : List Nat) (hq : inet_aton bh = Except.ok quad)
    (hp : struct_pack_H bp = Except.ok pb) :
    outgoing_connectionMade m bh bp =
      ({ m with otherConn := true },
       [TraceEv.setOtherConn, TraceEv.clientWrite ([5, 0, 0, 1] ++ quad ++ pb)], none) := by
  have hb : struct_pack_BBBB 5 0 0 1 = Except.ok [5, 0, 0, 1] := by decide
  simp [outgoing_connectionMade, emit_response, write_response_frame, hb, hq, hp, bind,
    Except.bind]

/-- C5 witness: a concrete bound address `10.0.0.2:43210`. -/
theorem c5_witness :
    outgoing_connectionMade initialMachine "10.0.0.2" 43210 =
      ({ initialMachine with otherConn := true },
       [TraceEv.setOtherConn, TraceEv.clientWrite [5, 0, 0, 1, 10, 0, 0, 2, 168, 202]],
       none) := by
  have h := c5_connect_success_reply initialMachine "10.0.0.2" 43210 [10, 0, 0, 2]
    [168, 202] (by decide) (by decide)
  simpa using h

/-- C6: a failed outbound connect attempt and a failed RESOLVE lookup
both run `_handle_error`, which logs the error and then writes exactly
the ten bytes `[5, 1, 0, 1, 0, 0, 0, 0, 0, 0]` (code 1, address
`0.0.0.0`, port 0) and closes the client transport. -/
theorem c6_failure_reply (m : Machine) (e : String) :
    stepSession m (.connectFailed e) =
      (m, [TraceEv.errLogged e, TraceEv.clientWrite [5, 1, 0, 1, 0, 0, 0, 0, 0, 0],
           TraceEv.clientClose]) ∧
    stepSession m (.lookupFailed e) =
      (m, [TraceEv.errLogged e, TraceEv.clientWrite [5, 1, 0, 1, 0, 0, 0, 0, 0, 0],
           TraceEv.clientClose]) ∧
    handle_error e = ([TraceEv.errLogged e, TraceEv.clientWrite [5, 1, 0, 1, 0, 0, 0, 0, 0, 0],
        TraceEv.clientClose], none) := by
  refine ⟨?_, ?_, ?_⟩ <;> simp [stepSession, handle_error, emit_response_1]

/-- C7: on a successful RESOLVE lookup the session writes exactly
`[5, 0, 0, 1]` followed by the four address bytes and then closes the
transport at once, leaving the machine unchanged (in particular
`otherConn` is still unset, so relay mode is never entered); and
`_done_parsing` in RESOLVE mode is independent of the request's port
field. -/
theorem c7_resolve_success (m : Machine) (addr : String) (quad : List Nat)
    (hq : inet_aton addr = Except.ok quad) :
    stepSession m (.lookupDone addr) =
      (m, [TraceEv.clientWrite ([5, 0, 0, 1] ++ quad), TraceEv.clientClose]) ∧
    (∀ (host : HostVal) (p p' : Nat),
        done_parsing (some Command.RESOLVE) host p =
          done_parsing (some Command.RESOLVE) host p') := by
  constructor
  · simp [stepSession, resolve_write_response, hq]
  · intro host p p'
    cases hu : py_str_utf8 host <;> simp [done_parsing, hu]

/-- C7 witness: the lookup result `93.184.216.34` yields the reply
`[5, 0, 0, 1, 93, 184, 216, 34]` followed by the close. -/
theorem c7_witness :
    stepSession initialMachine (.lookupDone "93.184.216.34") =
      (initialMachine,
       [TraceEv.clientWrite [5, 0, 0, 1, 93, 184, 216, 34], TraceEv.clientClose]) := by
  have h := (c7_resolve_success initialMachine "93.184.216.34" [93, 184, 216, 34]
    (by decide)).1
  simpa using h

/-- Unfolded run of the parsing loop on a complete version-5 greeting:
two handler invocations, the `[5, 0]` reply, and the request-start state
expecting 4 bytes. -/
theorem greeting_loop (f : Nat) (methods : List Nat) :
    runLoop (f + 3)
      { command := none, otherConn := false, ps := .handshakeStart, needed := 2,
        buf := 5 :: methods.length :: methods } [] =
      ({ command := none, otherConn := false, ps := .requestStart, needed := 4, buf := [] },
       [TraceEv.clientWrite [5, 0]], none) := by
  rw [show f + 3 = (f + 2) + 1 from rfl]
  rw [runLoop_succ_le _ _ _ (by simp)]
  simp [stepHandler]
  rw [show f + 2 = (f + 1) + 1 from rfl]
  rw [runLoop_succ_le _ _ _ (by simp)]
  simp [stepHandler]
  rw [runLoop_short _ _ _ (by simp)]

/-- C8: for every greeting frame with version byte 5, any `nmethods`
value (0 included, since the loop immediately feeds the empty method
list to the next handler) and any method-list contents, the fresh
session writes exactly `[5, 0]` and moves to the request-parsing state
expecting 4 bytes, with an empty buffer and no error. -/
theorem c8_greeting_noauth (n : Nat) (methods : List Nat) (h : methods.length = n) :
    dataReceived initialMachine (5 :: n :: methods) =
      ({ command := none, otherConn := false, ps := .requestStart, needed := 4, buf := [] },
       [TraceEv.clientWrite [5, 0]], none) := by
  subst h
  unfold dataReceived
  rw [if_neg (by simp [initialMachine])]
  rw [show 2 * (initialMachine.buf.length + (5 :: methods.length :: methods).length) + 4
      = (2 * methods.length + 5) + 3 by simp [initialMachine]; ring]
  simpa [initialMachine] using greeting_loop (2 * methods.length + 5) methods

/-- C8 witness: the empty method list (`nmethods = 0`) and a two-method
list. -/
theorem c8_witness :
    dataReceived initialMachine [5, 0] =
      ({ command := none, otherConn := false, ps := .requestStart, needed := 4, buf := [] },
       [TraceEv.clientWrite [5, 0]], none) ∧
    dataReceived initialMachine [5, 2, 0, 1] =
      ({ command := none, otherConn := false, ps := .requestStart, needed := 4, buf := [] },
       [TraceEv.clientWrite [5, 0]], none) :=
  ⟨c8_greeting_noauth 0 [] rfl, c8_greeting_noauth 2 [0, 1] rfl⟩

/-- C9: a greeting whose version byte is not 5 kills the fresh session
with `AssertionError` before any reply byte is produced, and a request
header whose version byte is not 5 or whose reserved byte is not 0 makes
the request handler fail the same way: no trace events (no reply, no
close, no connect, no lookup) and no next state. -/
theorem c9_bad_version_no_reply :
    (∀ (v n : Nat) (rest : List Nat), v ≠ 5 →
        (dataReceived initialMachine (v :: n :: rest)).2.1 = [] ∧
        (dataReceived initialMachine (v :: n :: rest)).2.2 = some PyErr.assertionError) ∧
    (∀ (cmd : Option Command) (v c r a : Nat), v ≠ 5 ∨ r ≠ 0 →
        stepHandler .requestStart cmd [v, c, r, a] =
          ⟨cmd, [], some PyErr.assertionError, none⟩) := by
  constructor
  · intro v n rest hv
    unfold dataReceived
    rw [if_neg (by simp [initialMachine])]
    obtain ⟨f, hf⟩ := Nat.exists_eq_succ_of_ne_zero
      (show 2 * (initialMachine.buf.length + (v :: n :: rest).length) + 4 ≠ 0 by
        simp [initialMachine])
    rw [hf, runLoop_succ_le _ _ _ (by simp [initialMachine])]
    simp [stepHandler, initialMachine, hv]
  · intro cmd v c r a h
    rcases h with hv | hr
    · simp [stepHandler, hv]
    · by_cases hv5 : v = 5
      · subst hv5; simp [stepHandler, hr]
      · simp [stepHandler, hv5]

/-- C9 witness: a version-4 greeting, and a request header with reserved
byte 1. -/
theorem c9_witness :
    ((dataReceived initialMachine [4, 1, 0]).2.1 = [] ∧
     (dataReceived initialMachine [4, 1, 0]).2.2 = some PyErr.assertionError) ∧
    stepHandler .requestStart none [5, 1, 1, 1] =
      ⟨none, [], some PyErr.assertionError, none⟩ :=
  ⟨c9_bad_version_no_reply.1 4 1 [0] (by decide),
   c9_bad_version_no_reply.2 none 5 1 1 1 (Or.inr (by decide))⟩

/-- One session step keeps `otherConn` set: nothing in the code ever
assigns `None` to it again. -/
theorem stepSession_otherConn (m : Machine) (ev : SessEvent) (h : m.otherConn = true) :
    (stepSession m ev).1.otherConn = true := by
  cases ev <;>
    simp [stepSession, dataReceived, h, outgoing_connectionMade, socks_connectionLost,
      outgoing_connectionLost, outgoing_dataReceived]

/-- Any sequence of session events keeps `otherConn` set. -/
theorem runEvents_otherConn (evs : List SessEvent) :
    ∀ m : Machine, m.otherConn = true → (runEvents m evs).1.otherConn = true := by
  induction evs with
  | nil => intro m h; simpa [runEvents] using h
  | cons ev rest ih =>
      intro m h
      simp only [runEvents]
      exact ih _ (stepSession_otherConn m ev h)

/-- C10: once `otherConn` is set it stays set under every single event
and every event sequence; from then on a client chunk is written
verbatim to the destination transport with the machine unchanged (the
parser state is never consulted again), a destination chunk is written
verbatim to the client transport, and closing either transport closes
the other. -/
theorem c10_relay_invariant (m : Machine) (h : m.otherConn = true) :
    (∀ ev : SessEvent, (stepSession m ev).1.otherConn = true) ∧
    (∀ evs : List SessEvent, (runEvents m evs).1.otherConn = true) ∧
    (∀ d, stepSession m (.clientData d) = (m, [TraceEv.otherWrite d])) ∧
    (∀ d, stepSession m (.outData d) = (m, [TraceEv.clientWrite d])) ∧
    (stepSession m .clientClosed = (m, [TraceEv.otherClose])) ∧
    (stepSession m .outClosed = (m, [TraceEv.clientClose])) := by
  refine ⟨fun ev => stepSession_otherConn m ev h, fun evs => runEvents_otherConn evs m h,
    ?_, ?_, ?_, ?_⟩
  · intro d; simp [stepSession, dataReceived, h]
  · intro d; simp [stepSession, outgoing_dataReceived]
  · simp [stepSession, socks_connectionLost, h]
  · simp [stepSession, outgoing_connectionLost]

/-- C10 witness: relaying at a concrete machine with `otherConn` set. -/
theorem c10_witness :
    stepSession
        { command := some Command.CONNECT, otherConn := true, ps := .requestIPv4,
          needed := 6, buf := [] } (.clientData [10, 20, 30]) =
      ({ command := some Command.CONNECT, otherConn := true, ps := .requestIPv4,
         needed := 6, buf := [] }, [TraceEv.otherWrite [10, 20, 30]]) :=
  (c10_relay_invariant
    { command := some Command.CONNECT, otherConn := true, ps := .requestIPv4,
      needed := 6, buf := [] } rfl).2.2.1 [10, 20, 30]

end Socks
